import Mathlib

/-!
Verification of the application-state container in `src/store/appStore.ts`.

The file shallowly embeds the store: the migration helper `getLocalItem`, the
state record `AppState` with its setter actions, the persistence projection
`partialize`, and the store construction (initializer seeded from legacy
localStorage keys, then rehydrated from the unified snapshot key
`peinture_storage_v1` by a shallow field-by-field merge, which is the zustand
persist middleware's default behaviour).

The browser environment (navigator.language, localStorage availability and
contents, and JSON.parse at each use type) is passed explicitly; JavaScript
exceptions of JSON.parse are modelled as `Option` results.
-/

namespace Peinture

/-- Runtime JavaScript value, used to model the dynamically typed results of
`localStorage.getItem`/`JSON.parse` and the unchecked `item as unknown as T`
cast inside `getLocalItem` (at runtime that cast is the identity, so a raw
string flows through as a string). -/
inductive JsVal where
  | str : String → JsVal
  | num : Rat → JsVal
  | bool : Bool → JsVal
  | null : JsVal
  | arr : List JsVal → JsVal
  | obj : List (String × JsVal) → JsVal

/-- Model of JavaScript `item.startsWith(p)` for a one-character prefix `p`
(the only form `getLocalItem` uses, with `p` a brace or a bracket): true iff
the first character of the string is that character. Lean's own
`String.startsWith` is extensionally the same on these inputs but is defined
by well-founded recursion, which blocks kernel evaluation, so the
head-character form is used throughout. -/
def startsWithChar (item : String) (c : Char) : Bool :=
  item.data.head? == some c

/-- The guard of `getLocalItem`'s JSON branch:
`item.startsWith('\x7b') || item.startsWith('[')`. -/
def looksLikeJson (item : String) : Bool :=
  startsWithChar item '\x7b' || startsWithChar item '['

/-- Embedding of `getLocalItem` (src/store/appStore.ts lines 10-23), generic in
the result type `T` exactly as the source is. The environment is explicit:
`storageAvailable` models `typeof localStorage !== 'undefined'`, `getItem`
models `localStorage.getItem` (`none` = the key is absent), `parse` models
`JSON.parse` followed by the implicit cast of its result to `T` (`none` = the
parse threw, which the source catches and turns into the default), and `cast`
models the unchecked `item as unknown as T` on the non-JSON branch. -/
def getLocalItem {T : Type} (storageAvailable : Bool)
    (getItem : String → Option String) (parse : String → Option T)
    (cast : String → T) (key : String) (dflt : T) : T :=
  if storageAvailable then
    match getItem key with
    | none => dflt
    | some item =>
      if looksLikeJson item then
        match parse item with
        | some v => v
        | none => dflt
      else cast item
  else dflt

/-- The dynamic-semantics instance of `getLocalItem`: runtime values are
`JsVal`s and the `as unknown as T` cast is the runtime identity, so the
non-JSON branch returns the stored string itself. -/
def getLocalItemDyn (storageAvailable : Bool)
    (getItem : String → Option String) (parse : String → Option JsVal)
    (key : String) (dflt : JsVal) : JsVal :=
  getLocalItem storageAvailable getItem parse JsVal.str key dflt

/-- C4: for a key present in storage, if the stored string begins with a brace
or a bracket and is valid JSON then `getLocalItem` returns the JSON-parsed
value, and if it begins with neither then `getLocalItem` returns the stored
string itself unchanged. -/
theorem getLocalItem_parse_or_raw (getItem : String → Option String)
    (parse : String → Option JsVal) (key : String) (dflt : JsVal)
    (item : String) (hit : getItem key = some item) :
    (looksLikeJson item = true →
      ∀ v, parse item = some v →
        getLocalItemDyn true getItem parse key dflt = v) ∧
    (looksLikeJson item = false →
      getLocalItemDyn true getItem parse key dflt = JsVal.str item) := by
  constructor
  · intro hpre v hv
    simp [getLocalItemDyn, getLocalItem, hit, hpre, hv]
  · intro hpre
    simp [getLocalItemDyn, getLocalItem, hit, hpre]

/-- Witness for C4 at a concrete input: the key `k` stores the plain string
`plain`, which begins with neither brace nor bracket, and is returned
unchanged. -/
theorem getLocalItem_parse_or_raw_witness :
    getLocalItemDyn true
      (fun k => if k = "k" then some "plain" else none)
      (fun _ => none) "k" JsVal.null = JsVal.str "plain" :=
  (getLocalItem_parse_or_raw
      (fun k => if k = "k" then some "plain" else none)
      (fun _ => none) "k" JsVal.null "plain" rfl).2 (by decide)

/-- C5: `getLocalItem` is a total function (it is a Lean `def`, so every call
returns normally; the source's try/catch is embedded as the `Option`-valued
`parse`), and on a stored string that begins with a brace or bracket but fails
to parse it returns the supplied default. -/
theorem getLocalItem_malformed_default {T : Type}
    (getItem : String → Option String) (parse : String → Option T)
    (cast : String → T) (key : String) (dflt : T) (item : String)
    (hit : getItem key = some item)
    (hpre : looksLikeJson item = true)
    (hbad : parse item = none) :
    getLocalItem true getItem parse cast key dflt = dflt := by
  simp [getLocalItem, hit, hpre, hbad]

/-- Witness for C5 at a concrete input: the stored string begins with a brace
but the parse fails, and the default `0` is returned. -/
theorem getLocalItem_malformed_default_witness :
    getLocalItem true (fun k => if k = "k" then some "\x7bbad" else none)
      (fun _ => (none : Option Nat)) (fun _ => 7) "k" 0 = 0 :=
  getLocalItem_malformed_default
    (fun k => if k = "k" then some "\x7bbad" else none)
    (fun _ => (none : Option Nat)) (fun _ => 7) "k" 0 "\x7bbad" rfl (by decide) rfl

/-- C6: `getLocalItem` returns exactly the supplied default both when the key
is absent from storage and when the storage medium itself is unavailable. -/
theorem getLocalItem_absent_default {T : Type}
    (getItem : String → Option String) (parse : String → Option T)
    (cast : String → T) (key : String) (dflt : T) :
    (getItem key = none →
      getLocalItem true getItem parse cast key dflt = dflt) ∧
    getLocalItem false getItem parse cast key dflt = dflt := by
  constructor
  · intro habs
    simp [getLocalItem, habs]
  · simp [getLocalItem]

/-- Witness for C6 at a concrete input: empty storage, the default `5` comes
back on both the absent-key and the storage-unavailable paths. -/
theorem getLocalItem_absent_default_witness :
    getLocalItem true (fun _ => (none : Option String))
        (fun _ => (none : Option Nat)) (fun _ => 7) "k" 5 = 5 ∧
    getLocalItem false (fun _ => (none : Option String))
        (fun _ => (none : Option Nat)) (fun _ => 7) "k" 5 = 5 :=
  ⟨(getLocalItem_absent_default (fun _ => none) (fun _ => none)
      (fun _ => 7) "k" 5).1 rfl,
   (getLocalItem_absent_default (fun _ => none) (fun _ => none)
      (fun _ => 7) "k" 5).2⟩

/-- C10: a key present with the empty string as its stored value yields the
empty string itself, not the supplied default: the empty string begins with
neither brace nor bracket, so it flows through the raw-string branch. -/
theorem getLocalItem_empty_string (getItem : String → Option String)
    (parse : String → Option JsVal) (key : String) (dflt : JsVal)
    (hit : getItem key = some "") :
    getLocalItemDyn true getItem parse key dflt = JsVal.str "" := by
  have hpre : looksLikeJson "" = false := by decide
  simp [getLocalItemDyn, getLocalItem, hit, hpre]

/-- Witness for C10 at a concrete input: key `k` stores the empty string and
the empty string is returned even though the default differs from it. -/
theorem getLocalItem_empty_string_witness :
    getLocalItemDyn true (fun k => if k = "k" then some "" else none)
      (fun _ => none) "k" (JsVal.str "fallback") = JsVal.str "" :=
  getLocalItem_empty_string (fun k => if k = "k" then some "" else none)
    (fun _ => none) "k" (JsVal.str "fallback") rfl

/-- Modelled from the spec: `GeneratedImage` is declared in src/types.ts,
which is not among the provided sources; the spec calls history entries
"opaque records owned by callers; the store only stores and replaces them,
never inspects structure", so it is modelled as an opaque record wrapping its
raw payload. -/
structure GeneratedImage where
  raw : String
deriving DecidableEq

/-- Modelled from the spec: `CloudImage` is declared in src/types.ts, which is
not among the provided sources; like `GeneratedImage` it is an opaque record
owned by callers. -/
structure CloudImage where
  raw : String
deriving DecidableEq

/-- The `imageDimensions` payload `\x7b width: number, height: number \x7d`
(JavaScript numbers are carried as exact rationals; the store never computes
with them). -/
structure Dimensions where
  width : Rat
  height : Rat
deriving DecidableEq

/-- The state record of the store (the data fields of the `AppState` interface
in src/store/appStore.ts; the action fields are embedded below as functions on
this record). `Language`, `ProviderOption`, `ModelOption`, `AspectRatioOption`
and `AppView` are string-literal union types declared in files not among the
provided sources, so those fields are carried as strings; `number` fields are
carried as exact rationals. -/
structure AppState where
  language : String
  provider : String
  model : String
  aspectRatio : String
  seed : String
  steps : Rat
  guidanceScale : Rat
  autoTranslate : Bool
  history : List GeneratedImage
  cloudHistory : List CloudImage
  currentView : String
  prompt : String
  isLoading : Bool
  isTranslating : Bool
  isOptimizing : Bool
  isUpscaling : Bool
  isDownloading : Bool
  isUploading : Bool
  currentImage : Option GeneratedImage
  imageDimensions : Option Dimensions
  isLiveMode : Bool
  error : Option String
deriving DecidableEq

/-- Argument form of the setters that accept either a direct replacement value
or a transformation function of the previous value (`setHistory`,
`setCloudHistory`, `setCurrentImage`); the source distinguishes the two by a
runtime `typeof historyOrFn === 'function'` check, which the tag models. -/
inductive ValOrFn (α : Type) where
  | val : α → ValOrFn α
  | fn : (α → α) → ValOrFn α

/-- Action `setLanguage`: shallow merge of the new `language` into state. -/
def setLanguage (language : String) (s : AppState) : AppState :=
  { s with language := language }

/-- Action `setProvider`: shallow merge of the new `provider` into state. -/
def setProvider (provider : String) (s : AppState) : AppState :=
  { s with provider := provider }

/-- Action `setModel`: shallow merge of the new `model` into state. -/
def setModel (model : String) (s : AppState) : AppState :=
  { s with model := model }

/-- Action `setAspectRatio`: shallow merge of the new `aspectRatio`. -/
def setAspectRatio (aspectRatio : String) (s : AppState) : AppState :=
  { s with aspectRatio := aspectRatio }

/-- Action `setSeed`: shallow merge of the new `seed` into state. -/
def setSeed (seed : String) (s : AppState) : AppState :=
  { s with seed := seed }

/-- Action `setSteps`: shallow merge of the new `steps` into state. -/
def setSteps (steps : Rat) (s : AppState) : AppState :=
  { s with steps := steps }

/-- Action `setGuidanceScale`: shallow merge of the new `guidanceScale`. -/
def setGuidanceScale (guidanceScale : Rat) (s : AppState) : AppState :=
  { s with guidanceScale := guidanceScale }

/-- Action `setAutoTranslate`: shallow merge of the new `autoTranslate`. -/
def setAutoTranslate (autoTranslate : Bool) (s : AppState) : AppState :=
  { s with autoTranslate := autoTranslate }

/-- Action `setHistory`: replaces `history` with the given array, or with the
given function applied to the previous `history`. -/
def setHistory (historyOrFn : ValOrFn (List GeneratedImage))
    (s : AppState) : AppState :=
  match historyOrFn with
  | .val h => { s with history := h }
  | .fn f => { s with history := f s.history }

/-- Action `setCloudHistory`: replaces `cloudHistory` with the given array, or
with the given function applied to the previous `cloudHistory`. -/
def setCloudHistory (historyOrFn : ValOrFn (List CloudImage))
    (s : AppState) : AppState :=
  match historyOrFn with
  | .val h => { s with cloudHistory := h }
  | .fn f => { s with cloudHistory := f s.cloudHistory }

/-- Action `setCurrentView`: shallow merge of the new `currentView`. -/
def setCurrentView (currentView : String) (s : AppState) : AppState :=
  { s with currentView := currentView }

/-- Action `setPrompt`: shallow merge of the new `prompt` into state. -/
def setPrompt (prompt : String) (s : AppState) : AppState :=
  { s with prompt := prompt }

/-- Action `setIsLoading`: shallow merge of the new `isLoading` flag. -/
def setIsLoading (isLoading : Bool) (s : AppState) : AppState :=
  { s with isLoading := isLoading }

/-- Action `setIsTranslating`: shallow merge of the new `isTranslating`. -/
def setIsTranslating (isTranslating : Bool) (s : AppState) : AppState :=
  { s with isTranslating := isTranslating }

/-- Action `setIsOptimizing`: shallow merge of the new `isOptimizing`. -/
def setIsOptimizing (isOptimizing : Bool) (s : AppState) : AppState :=
  { s with isOptimizing := isOptimizing }

/-- Action `setIsUpscaling`: shallow merge of the new `isUpscaling`. -/
def setIsUpscaling (isUpscaling : Bool) (s : AppState) : AppState :=
  { s with isUpscaling := isUpscaling }

/-- Action `setIsDownloading`: shallow merge of the new `isDownloading`. -/
def setIsDownloading (isDownloading : Bool) (s : AppState) : AppState :=
  { s with isDownloading := isDownloading }

/-- Action `setIsUploading`: shallow merge of the new `isUploading`. -/
def setIsUploading (isUploading : Bool) (s : AppState) : AppState :=
  { s with isUploading := isUploading }

/-- Action `setCurrentImage`: replaces `currentImage` with the given value, or
with the given function applied to the previous `currentImage`. -/
def setCurrentImage (imageOrFn : ValOrFn (Option GeneratedImage))
    (s : AppState) : AppState :=
  match imageOrFn with
  | .val img => { s with currentImage := img }
  | .fn f => { s with currentImage := f s.currentImage }

/-- Action `setImageDimensions`: shallow merge of the new `imageDimensions`. -/
def setImageDimensions (imageDimensions : Option Dimensions)
    (s : AppState) : AppState :=
  { s with imageDimensions := imageDimensions }

/-- Action `setIsLiveMode`: shallow merge of the new `isLiveMode` flag. -/
def setIsLiveMode (isLiveMode : Bool) (s : AppState) : AppState :=
  { s with isLiveMode := isLiveMode }

/-- Action `setError`: shallow merge of the new `error` into state. -/
def setError (error : Option String) (s : AppState) : AppState :=
  { s with error := error }

/-- Action `resetSettings` (src/store/appStore.ts lines 157-168): one shallow
merge that clears `prompt`, `seed`, `currentImage`, `isLiveMode`, `error` and
`imageDimensions` and puts `aspectRatio` back to `1:1`. -/
def resetSettings (s : AppState) : AppState :=
  { s with
    prompt := ""
    seed := ""
    aspectRatio := "1:1"
    currentImage := none
    isLiveMode := false
    error := none
    imageDimensions := none }

/-- Shape of the persisted snapshot: exactly the ten settings/history fields
enumerated by the `partialize` option of the persist middleware
(src/store/appStore.ts lines 174-185). By construction this record type has no
slot for any ephemeral field (`currentView`, `prompt`, the busy flags,
`currentImage`, `imageDimensions`, `isLiveMode`, `error`). -/
structure Persisted where
  language : String
  provider : String
  model : String
  aspectRatio : String
  seed : String
  steps : Rat
  guidanceScale : Rat
  autoTranslate : Bool
  history : List GeneratedImage
  cloudHistory : List CloudImage
deriving DecidableEq

/-- The `partialize` projection: picks the ten persisted fields out of the
state, each taken verbatim from the corresponding state field. -/
def partialize (state : AppState) : Persisted :=
  { language := state.language
    provider := state.provider
    model := state.model
    aspectRatio := state.aspectRatio
    seed := state.seed
    steps := state.steps
    guidanceScale := state.guidanceScale
    autoTranslate := state.autoTranslate
    history := state.history
    cloudHistory := state.cloudHistory }

/-- C1: after `resetSettings`, `prompt` and `seed` are the empty string,
`aspectRatio` is `1:1`, `currentImage` and `error` are cleared, `isLiveMode`
is off, and `provider`, `model`, `language`, `steps`, `guidanceScale`,
`autoTranslate`, `history` and `cloudHistory` keep their previous values. -/
theorem resetSettings_resets_and_preserves (s : AppState) :
    (resetSettings s).prompt = "" ∧
    (resetSettings s).seed = "" ∧
    (resetSettings s).aspectRatio = "1:1" ∧
    (resetSettings s).currentImage = none ∧
    (resetSettings s).error = none ∧
    (resetSettings s).isLiveMode = false ∧
    (resetSettings s).provider = s.provider ∧
    (resetSettings s).model = s.model ∧
    (resetSettings s).language = s.language ∧
    (resetSettings s).steps = s.steps ∧
    (resetSettings s).guidanceScale = s.guidanceScale ∧
    (resetSettings s).autoTranslate = s.autoTranslate ∧
    (resetSettings s).history = s.history ∧
    (resetSettings s).cloudHistory = s.cloudHistory :=
  ⟨rfl, rfl, rfl, rfl, rfl, rfl, rfl, rfl, rfl, rfl, rfl, rfl, rfl, rfl⟩

/-- Counterexample to C2: the claim says `resetSettings` leaves
`imageDimensions` unchanged, but the source action also sets
`imageDimensions: null`; on a state whose `imageDimensions` is a concrete
64 by 64 value, the field differs after the call. -/
theorem resetSettings_changes_imageDimensions :
    (resetSettings
      { language := "en", provider := "huggingface", model := "m"
        aspectRatio := "1:1", seed := "", steps := 9, guidanceScale := 3.5
        autoTranslate := false, history := [], cloudHistory := []
        currentView := "creation", prompt := "", isLoading := false
        isTranslating := false, isOptimizing := false, isUpscaling := false
        isDownloading := false, isUploading := false, currentImage := none
        imageDimensions := some ⟨64, 64⟩, isLiveMode := false
        error := none }).imageDimensions ≠ some ⟨64, 64⟩ := by
  decide

/-- C2 amended: `resetSettings` modifies only the fields `prompt`, `seed`,
`aspectRatio`, `currentImage`, `isLiveMode`, `error` and additionally
`imageDimensions` (which it clears to none); every other field — including
`provider`, `model` and the remaining ephemeral fields `currentView` and the
busy flags — is unchanged by the call. -/
theorem resetSettings_frame (s : AppState) :
    (resetSettings s).prompt = "" ∧
    (resetSettings s).seed = "" ∧
    (resetSettings s).aspectRatio = "1:1" ∧
    (resetSettings s).currentImage = none ∧
    (resetSettings s).isLiveMode = false ∧
    (resetSettings s).error = none ∧
    (resetSettings s).imageDimensions = none ∧
    (resetSettings s).language = s.language ∧
    (resetSettings s).provider = s.provider ∧
    (resetSettings s).model = s.model ∧
    (resetSettings s).steps = s.steps ∧
    (resetSettings s).guidanceScale = s.guidanceScale ∧
    (resetSettings s).autoTranslate = s.autoTranslate ∧
    (resetSettings s).history = s.history ∧
    (resetSettings s).cloudHistory = s.cloudHistory ∧
    (resetSettings s).currentView = s.currentView ∧
    (resetSettings s).isLoading = s.isLoading ∧
    (resetSettings s).isTranslating = s.isTranslating ∧
    (resetSettings s).isOptimizing = s.isOptimizing ∧
    (resetSettings s).isUpscaling = s.isUpscaling ∧
    (resetSettings s).isDownloading = s.isDownloading ∧
    (resetSettings s).isUploading = s.isUploading :=
  ⟨rfl, rfl, rfl, rfl, rfl, rfl, rfl, rfl, rfl, rfl, rfl, rfl, rfl, rfl, rfl,
   rfl, rfl, rfl, rfl, rfl, rfl, rfl⟩

/-- C3: the persisted snapshot is exactly the projection of the in-memory
state onto the ten settings/history fields (the `Persisted` record type has no
slot for any ephemeral field), and this holds at every state — in particular
after every setter call: setters of persisted fields update exactly their
field of the snapshot, and setters of ephemeral fields leave the snapshot
untouched, shown here for every setter of the store. -/
theorem partialize_projects (s : AppState) :
    (partialize s = { language := s.language, provider := s.provider
                      model := s.model, aspectRatio := s.aspectRatio
                      seed := s.seed, steps := s.steps
                      guidanceScale := s.guidanceScale
                      autoTranslate := s.autoTranslate, history := s.history
                      cloudHistory := s.cloudHistory }) ∧
    (∀ v, partialize (setLanguage v s) = { partialize s with language := v }) ∧
    (∀ v, partialize (setProvider v s) = { partialize s with provider := v }) ∧
    (∀ v, partialize (setModel v s) = { partialize s with model := v }) ∧
    (∀ v, partialize (setAspectRatio v s) =
      { partialize s with aspectRatio := v }) ∧
    (∀ v, partialize (setSeed v s) = { partialize s with seed := v }) ∧
    (∀ v, partialize (setSteps v s) = { partialize s with steps := v }) ∧
    (∀ v, partialize (setGuidanceScale v s) =
      { partialize s with guidanceScale := v }) ∧
    (∀ v, partialize (setAutoTranslate v s) =
      { partialize s with autoTranslate := v }) ∧
    (∀ a, partialize (setHistory (.val a) s) =
      { partialize s with history := a }) ∧
    (∀ f, partialize (setHistory (.fn f) s) =
      { partialize s with history := f s.history }) ∧
    (∀ a, partialize (setCloudHistory (.val a) s) =
      { partialize s with cloudHistory := a }) ∧
    (∀ f, partialize (setCloudHistory (.fn f) s) =
      { partialize s with cloudHistory := f s.cloudHistory }) ∧
    (∀ v, partialize (setCurrentView v s) = partialize s) ∧
    (∀ v, partialize (setPrompt v s) = partialize s) ∧
    (∀ v, partialize (setIsLoading v s) = partialize s) ∧
    (∀ v, partialize (setIsTranslating v s) = partialize s) ∧
    (∀ v, partialize (setIsOptimizing v s) = partialize s) ∧
    (∀ v, partialize (setIsUpscaling v s) = partialize s) ∧
    (∀ v, partialize (setIsDownloading v s) = partialize s) ∧
    (∀ v, partialize (setIsUploading v s) = partialize s) ∧
    (∀ a, partialize (setCurrentImage (.val a) s) = partialize s) ∧
    (∀ f, partialize (setCurrentImage (.fn f) s) = partialize s) ∧
    (∀ v, partialize (setImageDimensions v s) = partialize s) ∧
    (∀ v, partialize (setIsLiveMode v s) = partialize s) ∧
    (∀ v, partialize (setError v s) = partialize s) :=
  ⟨rfl, fun _ => rfl, fun _ => rfl, fun _ => rfl, fun _ => rfl, fun _ => rfl,
   fun _ => rfl, fun _ => rfl, fun _ => rfl, fun _ => rfl, fun _ => rfl,
   fun _ => rfl, fun _ => rfl, fun _ => rfl, fun _ => rfl, fun _ => rfl,
   fun _ => rfl, fun _ => rfl, fun _ => rfl, fun _ => rfl, fun _ => rfl,
   fun _ => rfl, fun _ => rfl, fun _ => rfl, fun _ => rfl, fun _ => rfl⟩

/-- C7: `setHistory` applied to a function argument yields the function
applied to the previous history and leaves every other field unchanged;
applied to a direct array it replaces history with exactly that array; and the
same value-or-function semantics holds for `setCloudHistory` over
`cloudHistory` and `setCurrentImage` over `currentImage`. -/
theorem setHistory_value_or_fn (s : AppState) :
    (∀ f, setHistory (.fn f) s = { s with history := f s.history }) ∧
    (∀ a, setHistory (.val a) s = { s with history := a }) ∧
    (∀ f, setCloudHistory (.fn f) s =
      { s with cloudHistory := f s.cloudHistory }) ∧
    (∀ a, setCloudHistory (.val a) s = { s with cloudHistory := a }) ∧
    (∀ f, setCurrentImage (.fn f) s =
      { s with currentImage := f s.currentImage }) ∧
    (∀ a, setCurrentImage (.val a) s = { s with currentImage := a }) :=
  ⟨fun _ => rfl, fun _ => rfl, fun _ => rfl, fun _ => rfl, fun _ => rfl,
   fun _ => rfl⟩

/-- Model of JavaScript `s.startsWith(p)` for a general prefix: a prefix test
on the character lists (computable, unlike `String.startsWith`, which is
defined by well-founded recursion). -/
def startsWithStr (s p : String) : Bool :=
  p.data.isPrefixOf s.data

/-- Model of JavaScript `s.toLowerCase()`: characterwise lowering (the locale
tags it is applied to are ASCII). -/
def toLowerStr (s : String) : String :=
  ⟨s.data.map Char.toLower⟩

/-- One entry of a model-option list: `\x7b label, value \x7d`. -/
structure ModelOptionEntry where
  label : String
  value : String
deriving DecidableEq

/-- Modelled from the spec: `HF_MODEL_OPTIONS` is imported from
src/constants.ts, which is not among the provided sources. The spec says only
that the model defaults to "the first configured model option", so the list is
modelled as an abstract nonempty option list with one placeholder entry; the
theorems refer to its first entry's value, never to the placeholder text. -/
def HF_MODEL_OPTIONS : List ModelOptionEntry :=
  [{ label := "Default", value := "hf-default-model" }]

/-- The model default `HF_MODEL_OPTIONS[0].value`. -/
def hfDefaultModel : String :=
  (HF_MODEL_OPTIONS.headD { label := "", value := "" }).value

/-- The browser environment the store initializer reads: `browserLang` models
`navigator.language`; `storageAvailable` and `getItem` model the localStorage
medium as in `getLocalItem`; the remaining fields model `JSON.parse` and the
unchecked `as unknown as T` cast at each result type a legacy key is read at
(string-typed fields cast a raw string by the runtime identity, so no
parameter is needed for them). -/
structure Env where
  browserLang : String
  storageAvailable : Bool
  getItem : String → Option String
  parseStr : String → Option String
  parseHistory : String → Option (List GeneratedImage)
  castHistory : String → List GeneratedImage
  parseCloudHistory : String → Option (List CloudImage)
  castCloudHistory : String → List CloudImage

/-- The initializer's state (src/store/appStore.ts lines 88-130): settings
seeded through `getLocalItem` from the legacy keys (language defaulting by the
`navigator.language.toLowerCase().startsWith('zh')` check, provider to
`huggingface`, model to `HF_MODEL_OPTIONS[0].value`, aspectRatio to `1:1`,
histories to empty arrays), fixed defaults for the other settings, and the
ephemeral fields at their fixed defaults. -/
def initialState (env : Env) : AppState :=
  { language := getLocalItem env.storageAvailable env.getItem env.parseStr id
      "app_language"
      (if startsWithStr (toLowerStr env.browserLang) "zh" then "zh" else "en")
    provider := getLocalItem env.storageAvailable env.getItem env.parseStr id
      "app_provider" "huggingface"
    model := getLocalItem env.storageAvailable env.getItem env.parseStr id
      "app_model" hfDefaultModel
    aspectRatio := getLocalItem env.storageAvailable env.getItem env.parseStr
      id "app_aspect_ratio" "1:1"
    seed := ""
    steps := 9
    guidanceScale := 3.5
    autoTranslate := false
    history := getLocalItem env.storageAvailable env.getItem env.parseHistory
      env.castHistory "ai_image_gen_history" []
    cloudHistory := getLocalItem env.storageAvailable env.getItem
      env.parseCloudHistory env.castCloudHistory "ai_cloud_history" []
    currentView := "creation"
    prompt := ""
    isLoading := false
    isTranslating := false
    isOptimizing := false
    isUpscaling := false
    isDownloading := false
    isUploading := false
    currentImage := none
    imageDimensions := none
    isLiveMode := false
    error := none }

/-- The unified snapshot key `name: 'peinture_storage_v1'` of the persist
middleware. -/
def unifiedStorageKey : String := "peinture_storage_v1"

/-- A persisted snapshot as read back from storage: any subset of the ten
persisted fields may be present (a snapshot written by this program carries
all ten, but storage contents are arbitrary strings and a partial object
deserializes to a partial record). -/
structure PartialSnapshot where
  language : Option String := none
  provider : Option String := none
  model : Option String := none
  aspectRatio : Option String := none
  seed : Option String := none
  steps : Option Rat := none
  guidanceScale : Option Rat := none
  autoTranslate : Option Bool := none
  history : Option (List GeneratedImage) := none
  cloudHistory : Option (List CloudImage) := none
deriving DecidableEq

/-- Rehydration merge of the persist middleware: the default merge is the
shallow spread `\x7b ...currentState, ...persistedState \x7d`, so each field
present in the deserialized snapshot overrides the initializer's value and
each absent field keeps it. -/
def rehydrate (current : AppState) (persisted : PartialSnapshot) : AppState :=
  { current with
    language := persisted.language.getD current.language
    provider := persisted.provider.getD current.provider
    model := persisted.model.getD current.model
    aspectRatio := persisted.aspectRatio.getD current.aspectRatio
    seed := persisted.seed.getD current.seed
    steps := persisted.steps.getD current.steps
    guidanceScale := persisted.guidanceScale.getD current.guidanceScale
    autoTranslate := persisted.autoTranslate.getD current.autoTranslate
    history := persisted.history.getD current.history
    cloudHistory := persisted.cloudHistory.getD current.cloudHistory }

/-- Store construction: the initializer runs (reading the legacy keys through
`getLocalItem` unconditionally), then the persist middleware looks up the
unified snapshot key in the storage medium (`createJSONStorage(() =>
localStorage)`); if the medium is unavailable, the key is absent, or the
stored string fails to deserialize (`parseSnapshot` models `JSON.parse` plus
extraction of the snapshot's `state` object, `none` = failure), the
initializer's state stands; otherwise the deserialized snapshot is merged over
it field by field. -/
def constructStore (env : Env)
    (parseSnapshot : String → Option PartialSnapshot) : AppState :=
  if env.storageAvailable then
    match env.getItem unifiedStorageKey with
    | none => initialState env
    | some raw =>
      match parseSnapshot raw with
      | none => initialState env
      | some snap => rehydrate (initialState env) snap
  else initialState env

/-- C8: constructed over a storage medium with no entries at all, the store's
state has language `zh` when the browser locale lowercases to a string
beginning with `zh` and `en` otherwise, provider `huggingface`, model
`HF_MODEL_OPTIONS[0].value`, aspectRatio `1:1`, steps 9, guidanceScale 3.5,
empty seed, autoTranslate off, and empty history and cloudHistory arrays. -/
theorem fresh_store_defaults (env : Env)
    (p : String → Option PartialSnapshot)
    (hempty : ∀ k, env.getItem k = none) :
    (constructStore env p).language =
      (if startsWithStr (toLowerStr env.browserLang) "zh"
        then "zh" else "en") ∧
    (constructStore env p).provider = "huggingface" ∧
    (constructStore env p).model = hfDefaultModel ∧
    (constructStore env p).aspectRatio = "1:1" ∧
    (constructStore env p).steps = 9 ∧
    (constructStore env p).guidanceScale = 3.5 ∧
    (constructStore env p).seed = "" ∧
    (constructStore env p).autoTranslate = false ∧
    (constructStore env p).history = [] ∧
    (constructStore env p).cloudHistory = [] := by
  cases h : env.storageAvailable <;>
    simp [constructStore, h, hempty, initialState, getLocalItem]

/-- Witness for C8 at a concrete input: a Chinese browser locale and an empty
storage medium yield the documented defaults. -/
theorem fresh_store_defaults_witness :
    (constructStore
      { browserLang := "zh-CN", storageAvailable := true
        getItem := fun _ => none, parseStr := fun _ => none
        parseHistory := fun _ => none, castHistory := fun _ => []
        parseCloudHistory := fun _ => none
        castCloudHistory := fun _ => [] } (fun _ => none)).language = "zh" ∧
    (constructStore
      { browserLang := "zh-CN", storageAvailable := true
        getItem := fun _ => none, parseStr := fun _ => none
        parseHistory := fun _ => none, castHistory := fun _ => []
        parseCloudHistory := fun _ => none
        castCloudHistory := fun _ => [] } (fun _ => none)).model =
      "hf-default-model" := by
  have h := fresh_store_defaults
    { browserLang := "zh-CN", storageAvailable := true
      getItem := fun _ => none, parseStr := fun _ => none
      parseHistory := fun _ => none, castHistory := fun _ => []
      parseCloudHistory := fun _ => none, castCloudHistory := fun _ => [] }
    (fun _ => none) (fun _ => rfl)
  exact ⟨h.1.trans (by decide), h.2.2.1.trans (by decide)⟩

/-- Raw string stored under the unified key in the C9 counterexample: the
serialized form of a snapshot whose `state` object is empty, as the persist
middleware writes it. -/
def emptySnapRaw : String := "\x7b\"state\":\x7b\x7d,\"version\":0\x7d"

/-- Deserializer used in the C9 counterexample, agreeing with JSON semantics
on the one string it is applied to: the empty `state` object deserializes to
the snapshot with every field absent. -/
def parseSnapEmpty : String → Option PartialSnapshot :=
  fun s => if s = emptySnapRaw then some {} else none

/-- Storage environment of the C9 counterexample: the unified key holds the
empty-state snapshot and the legacy key `app_language` holds `langVal`. -/
def legacyEnv (langVal : String) : Env :=
  { browserLang := "en-US", storageAvailable := true
    getItem := fun k =>
      if k = unifiedStorageKey then some emptySnapRaw
      else if k = "app_language" then some langVal else none
    parseStr := fun _ => none
    parseHistory := fun _ => none, castHistory := fun _ => []
    parseCloudHistory := fun _ => none, castCloudHistory := fun _ => [] }

/-- Counterexample to C9: the legacy keys are read unconditionally by the
initializer, so with the unified key present but its snapshot lacking the
`language` field, two storage contents that agree on the unified key and
differ only in the legacy `app_language` value yield different store
states. -/
theorem legacy_key_leaks_through_snapshot :
    (legacyEnv "en").getItem unifiedStorageKey =
      (legacyEnv "zh").getItem unifiedStorageKey ∧
    (constructStore (legacyEnv "en") parseSnapEmpty).language ≠
      (constructStore (legacyEnv "zh") parseSnapEmpty).language := by
  exact ⟨rfl, by decide⟩

/-- C9 amended: the legacy keys are read unconditionally at construction, and
the unified snapshot's fields override the legacy-seeded values field by
field; consequently, when the unified key is present and its snapshot defines
all six legacy-backed fields (language, provider, model, aspectRatio, history,
cloudHistory), the legacy keys cannot influence the result: any two
environments agreeing on the unified key's value yield the same store state,
however their legacy keys differ. -/
theorem unified_snapshot_overrides_legacy (e1 e2 : Env)
    (p : String → Option PartialSnapshot) (raw : String)
    (snap : PartialSnapshot)
    (h1a : e1.storageAvailable = true) (h2a : e2.storageAvailable = true)
    (h1 : e1.getItem unifiedStorageKey = some raw)
    (h2 : e2.getItem unifiedStorageKey = some raw)
    (hp : p raw = some snap)
    (hlang : snap.language.isSome = true)
    (hprov : snap.provider.isSome = true)
    (hmodel : snap.model.isSome = true)
    (har : snap.aspectRatio.isSome = true)
    (hhist : snap.history.isSome = true)
    (hcloud : snap.cloudHistory.isSome = true) :
    constructStore e1 p = constructStore e2 p := by
  obtain ⟨lv, hlv⟩ := Option.isSome_iff_exists.mp hlang
  obtain ⟨pv, hpv⟩ := Option.isSome_iff_exists.mp hprov
  obtain ⟨mv, hmv⟩ := Option.isSome_iff_exists.mp hmodel
  obtain ⟨av, hav⟩ := Option.isSome_iff_exists.mp har
  obtain ⟨hv, hhv⟩ := Option.isSome_iff_exists.mp hhist
  obtain ⟨cv, hcv⟩ := Option.isSome_iff_exists.mp hcloud
  simp [constructStore, h1a, h2a, h1, h2, hp, rehydrate, initialState,
    hlv, hpv, hmv, hav, hhv, hcv]

/-- Full snapshot used by the C9 witness: every legacy-backed field is
present. -/
def fullSnap : PartialSnapshot :=
  { language := some "fr", provider := some "pollinations"
    model := some "m2", aspectRatio := some "16:9"
    history := some [], cloudHistory := some [] }

/-- Deserializer used by the C9 witness. -/
def parseSnapFull : String → Option PartialSnapshot :=
  fun s => if s = "snapfull" then some fullSnap else none

/-- Storage environment of the C9 witness, with the legacy `app_language` key
holding `langVal` under a full unified snapshot. -/
def fullSnapEnv (langVal : String) : Env :=
  { browserLang := "en-US", storageAvailable := true
    getItem := fun k =>
      if k = unifiedStorageKey then some "snapfull"
      else if k = "app_language" then some langVal else none
    parseStr := fun _ => none
    parseHistory := fun _ => none, castHistory := fun _ => []
    parseCloudHistory := fun _ => none, castCloudHistory := fun _ => [] }

/-- Witness for the amended C9 at a concrete input: under a full snapshot,
storages differing only in the legacy `app_language` value construct
identical states. -/
theorem unified_snapshot_overrides_legacy_witness :
    constructStore (fullSnapEnv "en") parseSnapFull =
      constructStore (fullSnapEnv "zh") parseSnapFull :=
  unified_snapshot_overrides_legacy (fullSnapEnv "en") (fullSnapEnv "zh")
    parseSnapFull "snapfull" fullSnap rfl rfl (by decide) (by decide)
    (by decide) rfl rfl rfl rfl rfl rfl

end Peinture
